import Mathlib

/-!
Verification development for the xboxur3 repository: a UR3e teleoperation
GUI (src/airo_teleop/ur3e_teleop_gui.py) and a network-scanning utility
(src/find_robot.py).

The Python code is shallowly embedded:
* external effects (socket connects, robot/gripper/controller SDK calls,
  wall-clock time, file writes) are supplied by oracle/environment
  parameters;
* a successful Python call is `Except.ok`, a raised exception is
  `Except.error`;
* floats are modelled as exact rationals;
* the mutable `UR3eTeleopGUI` object is an explicit `GUIState` record and
  each method is a state-transition function.
-/

namespace XboxUr3

/-! ## Network scanner (src/find_robot.py, `scan_network`)

`scan_network` sweeps three /24 prefixes, for each host index 1..254
(Python `range(1, 255)`), attempting a TCP connect to port 30004
(`sock.connect_ex((ip, 30004))`).  The connect oracle
`conn : String → Nat → Option Int` gives, for a probed (ip, port),
`some r` when `connect_ex` returns the code `r` and `none` when the
attempt raises an exception (the Python `except: pass` branch).

Besides the list of found robots the embedding also returns the trace of
(address, port) probes actually attempted, so that claims about which
probes happen can be stated. -/

/-- The candidate /24 prefixes, in program order
(`networks = ["192.168.0", "192.168.1", "10.42.0"]`). -/
def networks : List String := ["192.168.0", "192.168.1", "10.42.0"]

/-- The fixed UR RTDE port used for every probe. -/
def rtdePort : Nat := 30004

/-- One probe of the sweep (the body of the inner `for i in range(1, 255)`
loop): record the attempted (ip, port); if `connect_ex` returned 0 append
the ip to the found list; a nonzero code or an exception leaves the found
list unchanged and the sweep continues. -/
def probeHost (conn : String → Nat → Option Int)
    (acc : List String × List (String × Nat)) (ip : String) :
    List String × List (String × Nat) :=
  let acc := (acc.1, acc.2 ++ [(ip, rtdePort)])
  match conn ip rtdePort with
  | some r => if r = 0 then (acc.1 ++ [ip], acc.2) else acc
  | none => acc

/-- `scan_network` from src/find_robot.py: the nested loops
`for network in networks: for i in range(1, 255): ...`, returning
(found robots, probe trace). -/
def scan_network (conn : String → Nat → Option Int) :
    List String × List (String × Nat) :=
  List.foldl
    (fun acc network =>
      List.foldl (fun acc i => probeHost conn acc (network ++ "." ++ toString i))
        acc (List.range' 1 254))
    ([], []) networks

/-- The addresses the spec says the sweep visits: for each of the three
prefixes in order, every host index from 1 to 254. -/
def sweepAddresses : List String :=
  ["192.168.0", "192.168.1", "10.42.0"].flatMap
    (fun network => (List.range' 1 254).map (fun i => network ++ "." ++ toString i))

/-- Unfolding a run of probes over a list of host indices: the found list
grows by the successfully connected ips (in order) and the trace by every
probed (ip, rtdePort). -/
theorem foldl_probeHost (conn : String → Nat → Option Int) (g : Nat → String)
    (l : List Nat) :
    ∀ acc : List String × List (String × Nat),
      List.foldl (fun acc i => probeHost conn acc (g i)) acc l =
        (acc.1 ++ List.filter (fun ip => decide (conn ip rtdePort = some 0)) (l.map g),
         acc.2 ++ List.map (fun ip => (ip, rtdePort)) (l.map g)) := by
  induction l with
  | nil => intro acc; simp
  | cons i l ih =>
    intro acc
    rw [List.foldl_cons, ih]
    unfold probeHost
    cases hc : conn (g i) rtdePort with
    | none => simp [hc]
    | some r =>
      rcases eq_or_ne r 0 with hr | hr
      · subst hr; simp [hc]
      · simp [hc, hr]

/-- Claim C2: the sweep probes, in order, every address prefix.i for
i from 1 to 254 for each of the three /24 prefixes "192.168.0",
"192.168.1", "10.42.0" (in that order), every probe targeting the single
fixed TCP port 30004, and no other address or port is ever probed —
whatever the connect oracle answers. -/
theorem claim_C2 (conn : String → Nat → Option Int) :
    (scan_network conn).2 = sweepAddresses.map (fun ip => (ip, 30004)) := by
  simp [scan_network, networks, foldl_probeHost, sweepAddresses, rtdePort]

/-- Claim C3: the hosts the scan reports are exactly the probed addresses
whose TCP connect returned 0, in probe order; a probe that fails
(nonzero code) or raises (oracle answers `none`) is omitted and the sweep
continues with the remaining addresses. -/
theorem claim_C3 (conn : String → Nat → Option Int) :
    (scan_network conn).1 =
      sweepAddresses.filter (fun ip => decide (conn ip 30004 = some 0)) := by
  simp [scan_network, networks, foldl_probeHost, sweepAddresses, rtdePort]

/-! ## Teleop GUI state (src/airo_teleop/ur3e_teleop_gui.py)

`UR3eTeleopGUI.__init__` holds the mutable state; GUI widgets that the
claims mention (speed label, record/save buttons, status labels, the
robot-IP combo box) are carried as plain fields.  The external robot
session (`URrtde`) is reduced to whether a gripper was attached to it;
the external teleop adapter (`GameControllerTeleop`) to its two speed
scaling attributes, which are the only parts of either object this
code reads or writes besides making SDK calls. -/

/-- The robot session: `self.robot` with its optional `gripper`
attribute. -/
structure Robot where
  hasGripper : Bool
deriving DecidableEq, Repr

/-- The teleop adapter: the two attributes of `GameControllerTeleop`
this code assigns (`linear_speed_scaling`, `angular_speed_scaling`). -/
structure Teleop where
  linear_speed_scaling : ℚ
  angular_speed_scaling : ℚ
deriving DecidableEq, Repr

/-- One recorded sample (`record_data_point`): timestamp, TCP pose,
twist, and gripper width (`None` when no gripper). -/
structure DataPoint where
  timestamp : ℚ
  tcp_pose : List ℚ
  twist : List ℚ
  gripper_width : Option ℚ
deriving DecidableEq, Repr

/-- The state of `UR3eTeleopGUI`. -/
structure GUIState where
  robot : Option Robot
  teleop : Option Teleop
  controller_connected : Bool
  is_recording : Bool
  recording_data : List DataPoint
  running : Bool
  scanning : Bool
  /-- `self.speed_var` (the slider value). -/
  speed : ℚ
  /-- `self.speed_label` text. -/
  speed_label : String
  /-- `self.robot_combo` text. -/
  robot_combo : String
  /-- `self.robot_status` text. -/
  robot_status : String
  /-- `self.record_btn` text. -/
  record_btn_text : String
  /-- `self.record_status` text. -/
  record_status : String
  save_btn_enabled : Bool
  start_btn_enabled : Bool
  stop_btn_enabled : Bool
  record_btn_enabled : Bool
deriving DecidableEq, Repr

/-- User-visible side effects (message boxes, status log lines). -/
inductive Effect where
  | warn (message : String)
  | info (message : String)
  | errorBox (message : String)
  | log (message : String)
deriving DecidableEq, Repr

/-- `update_button_states`. -/
def update_button_states (s : GUIState) : GUIState :=
  { s with
    start_btn_enabled := s.robot.isSome && s.controller_connected && !s.running,
    stop_btn_enabled := s.running,
    record_btn_enabled := s.running }

/-- `toggle_recording`: arming clears the sample buffer and sets the
recording flag; disarming clears the flag, updates the labels and
enables the save button, leaving the buffer as it is. -/
def toggle_recording (s : GUIState) : GUIState :=
  if !s.is_recording then
    { s with
      is_recording := true,
      recording_data := [],
      record_btn_text := "Stop Recording",
      record_status := "Recording...",
      save_btn_enabled := false }
  else
    { s with
      is_recording := false,
      record_btn_text := "Start Recording",
      record_status := "Recorded " ++ toString s.recording_data.length ++ " points",
      save_btn_enabled := true }

/-- The JSON document `save_recording` writes: the `metadata` object
(`robot_ip`, `recording_time`, `data_points`) and the `data` array. -/
structure RecordingFile where
  robot_ip : String
  recording_time : String
  data_points : Nat
  data : List DataPoint
deriving DecidableEq, Repr

/-- Environment of one `save_recording` call: the formatted
`datetime.now()` timestamp and the outcome of the `open`/`json.dump`
block (`Except.error` when it raises). -/
structure SaveEnv where
  timestamp : String
  write : Except String Unit

/-- `save_recording`: on an empty buffer show a warning and return;
otherwise serialize the buffer with its metadata to
`ur3e_recording_<timestamp>.json`, and on success disable the save
button. -/
def save_recording (env : SaveEnv) (s : GUIState) :
    GUIState × Option RecordingFile × List Effect :=
  if s.recording_data = [] then
    (s, none, [Effect.warn "No recording data to save"])
  else
    let filename := "ur3e_recording_" ++ env.timestamp ++ ".json"
    match env.write with
    | Except.ok _ =>
      ({ s with save_btn_enabled := false },
       some { robot_ip := s.robot_combo, recording_time := env.timestamp,
              data_points := s.recording_data.length, data := s.recording_data },
       [Effect.log ("Recording saved to " ++ filename),
        Effect.info ("Recording saved to " ++ filename)])
    | Except.error e =>
      (s, none,
       [Effect.errorBox ("Failed to save recording: " ++ e),
        Effect.log ("Save failed: " ++ e)])

/-- Claim C8: arming the recorder (`toggle_recording` when not
recording) resets the sample buffer to empty; disarming leaves the
buffer intact; in both cases the recording flag flips. -/
theorem claim_C8 (s : GUIState) :
    (toggle_recording s).recording_data =
      (if s.is_recording then s.recording_data else []) ∧
    (toggle_recording s).is_recording = !s.is_recording := by
  unfold toggle_recording
  cases h : s.is_recording <;> simp [h]

/-- Claim C9: with an empty recording buffer, `save_recording` writes
no file and leaves the whole state unchanged; it only reports a
warning. -/
theorem claim_C9 (env : SaveEnv) (s : GUIState)
    (hempty : s.recording_data = []) :
    save_recording env s = (s, none, [Effect.warn "No recording data to save"]) := by
  simp [save_recording, hempty]

/-- Claim C6: on a non-empty buffer and a successful write,
`save_recording` produces a file whose `data` array is exactly the
recorded samples in append order and whose `data_points` metadata field
is their number; the buffer is unchanged by the save. -/
theorem claim_C6 (env : SaveEnv) (s : GUIState)
    (hne : s.recording_data ≠ []) (hw : env.write = Except.ok ()) :
    ∃ f : RecordingFile,
      (save_recording env s).2.1 = some f ∧
      f.data = s.recording_data ∧
      f.data_points = s.recording_data.length ∧
      (save_recording env s).1.recording_data = s.recording_data := by
  refine ⟨{ robot_ip := s.robot_combo, recording_time := env.timestamp,
            data_points := s.recording_data.length, data := s.recording_data },
          ?_, rfl, rfl, ?_⟩ <;>
    simp [save_recording, hne, hw]

/-! ## Speed control (`update_speed_label`) -/

/-- The speed label text, Python `f"{speed:.0f}%"`: the slider value
rounded to an integer, followed by a percent sign. -/
def formatSpeed (speed : ℚ) : String := toString (round speed) ++ "%"

/-- `update_speed_label`: refresh the label from the slider value and,
when a teleop adapter is active, set its speed scalings to the base
speeds (0.2 linear, 0.6 angular) times `speed / 100`. -/
def update_speed_label (s : GUIState) : GUIState :=
  let speed := s.speed
  let s1 := { s with speed_label := formatSpeed speed }
  match s1.teleop with
  | none => s1
  | some t =>
    { s1 with teleop := some { t with
        linear_speed_scaling := 0.2 * (speed / 100),
        angular_speed_scaling := 0.6 * (speed / 100) } }

/-- Claim C10: applying the speed while an adapter is active sets its
linear scaling to exactly 0.2 * (speed / 100) and its angular scaling
to exactly 0.6 * (speed / 100) and otherwise only updates the label;
with no adapter active only the displayed label changes. -/
theorem claim_C10 (s : GUIState) :
    (∀ t, s.teleop = some t →
      update_speed_label s =
        { s with
          speed_label := formatSpeed s.speed,
          teleop := some { linear_speed_scaling := 0.2 * (s.speed / 100),
                           angular_speed_scaling := 0.6 * (s.speed / 100) } }) ∧
    (s.teleop = none →
      update_speed_label s = { s with speed_label := formatSpeed s.speed }) := by
  constructor
  · intro t ht
    simp [update_speed_label, ht]
  · intro ht
    simp [update_speed_label, ht]

/-! ## The control loop (`control_loop`, `record_data_point`)

The loop body runs inside `while self.running:`; all the work of a tick
is delegated to the adapter and the robot SDK, supplied here by a
`TickEnv` oracle.  A tick emits a trace of `Event`s: the two adapter
requests, the fixed `time.sleep(1/20)` delay, and on an exception the
logged error. -/

/-- Environment of one loop tick: the results of the external calls the
tick makes. `Except.error` is a raised exception. -/
structure TickEnv where
  /-- `self.teleop.read_twist_and_servo_to_target_position()`. -/
  servo : Except String (List ℚ)
  /-- `self.teleop.read_gripper_delta_and_move_gripper()`. -/
  gripperMove : Except String Unit
  /-- `time.time()`. -/
  now : ℚ
  /-- `self.robot.get_tcp_pose().tolist()`. -/
  pose : Except String (List ℚ)
  /-- `self.robot.gripper.get_current_width()`. -/
  width : Except String ℚ

/-- Observable events of the loop. -/
inductive Event where
  | servoRequest
  | gripperRequest
  | sleep (seconds : ℚ)
  | logError (message : String)
deriving DecidableEq, Repr

/-- `record_data_point(twist)`: when a robot session is open, append a
sample of (timestamp, tcp pose, twist, gripper width — `None` when no
gripper is attached); an exception from the SDK calls propagates. -/
def record_data_point (env : TickEnv) (twist : List ℚ) (s : GUIState) :
    Except String GUIState :=
  match s.robot with
  | none => Except.ok s
  | some r =>
    match env.pose with
    | Except.error e => Except.error e
    | Except.ok pose =>
      match (if r.hasGripper then env.width.map some else Except.ok none :
              Except String (Option ℚ)) with
      | Except.error e => Except.error e
      | Except.ok gw =>
        Except.ok { s with recording_data := s.recording_data ++
          [{ timestamp := env.now, tcp_pose := pose, twist := twist,
             gripper_width := gw }] }

/-- One iteration of the `while self.running:` body: when the adapter is
set, one servo-command request, then one gripper-delta request, then the
optional recording step; the iteration finishes with
`time.sleep(1/20)`.  Returns the next state (or the escaping exception)
and the iteration's event trace. -/
def controlTick (env : TickEnv) (s : GUIState) :
    Except String GUIState × List Event :=
  match s.teleop with
  | none => (Except.ok s, [Event.sleep (1/20)])
  | some _ =>
    match env.servo with
    | Except.error e => (Except.error e, [Event.servoRequest])
    | Except.ok twist =>
      match env.gripperMove with
      | Except.error e => (Except.error e, [Event.servoRequest, Event.gripperRequest])
      | Except.ok _ =>
        if s.is_recording then
          match record_data_point env twist s with
          | Except.error e =>
            (Except.error e, [Event.servoRequest, Event.gripperRequest])
          | Except.ok s2 =>
            (Except.ok s2,
             [Event.servoRequest, Event.gripperRequest, Event.sleep (1/20)])
        else
          (Except.ok s,
           [Event.servoRequest, Event.gripperRequest, Event.sleep (1/20)])

/-- `control_loop`, run for at most `fuel` iterations with `envs k` the
environment of iteration `k`: while the running flag is true, run one
tick; an exception escaping the `while` is caught by the surrounding
`try`, logged, and the running flag is set to false, ending the loop. -/
def control_loop (envs : Nat → TickEnv) :
    Nat → Nat → GUIState → GUIState × List Event
  | 0, _, s => (s, [])
  | fuel + 1, k, s =>
    if s.running then
      match controlTick (envs k) s with
      | (Except.ok s2, evs) =>
        ((control_loop envs fuel (k + 1) s2).1,
         evs ++ (control_loop envs fuel (k + 1) s2).2)
      | (Except.error e, evs) =>
        ({ s with running := false },
         evs ++ [Event.logError ("Control loop error: " ++ e)])
    else (s, [])

/-- Claim C1: on an iteration with the running flag true and the teleop
adapter set whose external calls succeed, the loop makes exactly one
servo-command request, then exactly one gripper-delta request, then
sleeps 1/20 second, and only then continues with the next iteration —
the fixed 20 Hz tick. -/
theorem claim_C1 (envs : Nat → TickEnv) (fuel k : Nat) (s s2 : GUIState)
    (evs : List Event) (hrun : s.running = true) (ht : s.teleop.isSome)
    (htick : controlTick (envs k) s = (Except.ok s2, evs)) :
    evs = [Event.servoRequest, Event.gripperRequest, Event.sleep (1/20)] ∧
    control_loop envs (fuel + 1) k s =
      ((control_loop envs fuel (k + 1) s2).1,
       [Event.servoRequest, Event.gripperRequest, Event.sleep (1/20)] ++
         (control_loop envs fuel (k + 1) s2).2) := by
  obtain ⟨t, ht⟩ := Option.isSome_iff_exists.mp ht
  have hevs : evs = [Event.servoRequest, Event.gripperRequest, Event.sleep (1/20)] := by
    unfold controlTick at htick
    simp only [ht] at htick
    rcases hs : (envs k).servo with e | twist <;> simp only [hs] at htick
    · simp at htick
    rcases hg : (envs k).gripperMove with e | u <;> simp only [hg] at htick
    · simp at htick
    by_cases hr : s.is_recording = true
    · rw [if_pos hr] at htick
      rcases hd : record_data_point (envs k) twist s with e | s3 <;>
        simp only [hd] at htick
      · simp at htick
      · simp at htick
        rw [← htick.2]
        simp
    · rw [if_neg hr] at htick
      simp at htick
      rw [← htick.2]
      simp
  subst hevs
  refine ⟨rfl, ?_⟩
  rw [control_loop, hrun]
  simp [htick]

/-- Claim C4: if a tick raises an exception, the loop catches it, logs
it, sets the running flag to false and terminates; the failing tick is
not retried and nothing else changes. -/
theorem claim_C4 (envs : Nat → TickEnv) (fuel k : Nat) (s : GUIState)
    (e : String) (evs : List Event) (hrun : s.running = true)
    (htick : controlTick (envs k) s = (Except.error e, evs)) :
    control_loop envs (fuel + 1) k s =
      ({ s with running := false },
       evs ++ [Event.logError ("Control loop error: " ++ e)]) := by
  rw [control_loop, hrun]
  simp [htick]

/-- Claim C5: a tick that completes appends a sample to the recording
buffer only when recording is armed and a robot session is open, and the
appended sample carries the tick's timestamp, TCP pose, twist, and
gripper width (`None` exactly when no gripper is attached); an unarmed
tick, or one without a robot session, leaves the buffer unchanged. -/
theorem claim_C5 (env : TickEnv) (s s2 : GUIState)
    (hok : (controlTick env s).1 = Except.ok s2) :
    (s.is_recording = false → s2.recording_data = s.recording_data) ∧
    (s.robot = none → s2.recording_data = s.recording_data) ∧
    (s.is_recording = true → ∀ r, s.robot = some r → s.teleop.isSome →
      ∃ twist pose gw,
        env.servo = Except.ok twist ∧
        env.pose = Except.ok pose ∧
        (r.hasGripper = true → ∃ w, env.width = Except.ok w ∧ gw = some w) ∧
        (r.hasGripper = false → gw = none) ∧
        s2.recording_data = s.recording_data ++
          [{ timestamp := env.now, tcp_pose := pose, twist := twist,
             gripper_width := gw }]) := by
  unfold controlTick at hok
  rcases hten : s.teleop with _ | t <;> simp only [hten] at hok
  · simp at hok
    subst hok
    refine ⟨fun _ => rfl, fun _ => rfl, fun _ r _ hsome => ?_⟩
    simp at hsome
  · rcases hs : env.servo with e | twist <;> simp only [hs] at hok
    · simp at hok
    rcases hg : env.gripperMove with e | u <;> simp only [hg] at hok
    · simp at hok
    by_cases hr : s.is_recording = true
    · rw [if_pos hr] at hok
      rcases hd : record_data_point env twist s with e | s3 <;>
        simp only [hd] at hok
      · simp at hok
      simp at hok
      subst hok
      refine ⟨fun hc => ?_, fun hnone => ?_, fun _ r hrob _ => ?_⟩
      · rw [hr] at hc
        exact Bool.noConfusion hc
      · unfold record_data_point at hd
        rw [hnone] at hd
        simp at hd
        subst hd
        rfl
      · unfold record_data_point at hd
        simp only [hrob] at hd
        rcases hp : env.pose with e | pose <;> simp only [hp] at hd
        · simp at hd
        rcases hgr : r.hasGripper with _ | _ <;> simp only [hgr] at hd
        · simp [Except.map] at hd
          exact ⟨twist, pose, none, rfl, rfl, fun hc => Bool.noConfusion hc,
                 fun _ => rfl, by subst hd; rfl⟩
        · rcases hw : env.width with e | w <;> simp only [hw, Except.map] at hd
          · simp at hd
          · simp at hd
            exact ⟨twist, pose, some w, rfl, rfl, fun _ => ⟨w, rfl, rfl⟩,
                   fun hc => Bool.noConfusion hc, by subst hd; rfl⟩
    · rw [if_neg hr] at hok
      simp at hok
      subst hok
      exact ⟨fun _ => rfl, fun _ => rfl, fun hc => absurd hc hr⟩

/-! ## Connection manager (`connect_robot`, `start_control`,
`stop_control`, `disconnect_robot`) -/

/-- Environment of one `connect_robot` call: the combo-box text after
`.strip()`, whether the `connect_ex` probe of port 30004 returned 0,
whether the `URrtde` constructor succeeded, and whether the
`Robotiq2F85` gripper constructor succeeded. -/
structure ConnectEnv where
  ipEntered : String
  reachable : Bool
  robotInitOk : Bool
  gripperOk : Bool

/-- `connect_robot`: validate the entered IP, probe port 30004, build
the robot session, and try to attach a gripper; every failure shows a
dialog and leaves the session as it was. -/
def connect_robot (env : ConnectEnv) (s : GUIState) : GUIState :=
  if env.ipEntered = "" then s
  else if !env.reachable then s
  else if !env.robotInitOk then s
  else
    let s := { s with robot := some { hasGripper := env.gripperOk },
                      robot_status := "Connected to " ++ env.ipEntered }
    update_button_states s

/-- `stop_control`: clear the running flag (the control thread then
leaves its loop and is joined), disarm the recorder if needed, and drop
the teleop adapter. -/
def stop_control (s : GUIState) : GUIState :=
  let s := { s with running := false }
  let s := if s.is_recording then toggle_recording s else s
  let s := { s with teleop := none }
  update_button_states s

/-- Environment of one `start_control` call: whether the
`GameControllerTeleop` constructor succeeded and the adapter object it
built. -/
structure StartEnv where
  initOk : Bool
  teleopInit : Teleop

/-- `start_control`: refuse unless both robot and controller are
connected; otherwise build the teleop adapter, apply the current speed
setting, set the running flag and start the control thread.  A
constructor exception is caught and leaves the state unchanged. -/
def start_control (env : StartEnv) (s : GUIState) : GUIState :=
  if !s.robot.isSome || !s.controller_connected then s
  else if !env.initOk then s
  else
    let s := { s with teleop := some env.teleopInit }
    let s := update_speed_label s
    let s := { s with running := true }
    update_button_states s

/-- `disconnect_robot`: stop the control loop first when it is running,
then clear the robot session and report the disconnected state. -/
def disconnect_robot (s : GUIState) : GUIState :=
  let s := if s.running then stop_control s else s
  let s := { s with robot := none, robot_status := "Not Connected" }
  update_button_states s

/-- The connection-manager invariant: the control loop may be running
only while a robot session is open. -/
def conn_invariant (s : GUIState) : Prop := s.running = true → s.robot.isSome

/-- `stop_control` always leaves the running flag cleared. -/
theorem stop_control_running (s : GUIState) : (stop_control s).running = false := by
  rcases h : s.is_recording with _ | _ <;>
    simp [stop_control, toggle_recording, update_button_states, h]

/-- `stop_control` does not touch the robot session. -/
theorem stop_control_robot (s : GUIState) : (stop_control s).robot = s.robot := by
  rcases h : s.is_recording with _ | _ <;>
    simp [stop_control, toggle_recording, update_button_states, h]

/-- `disconnect_robot` ends with the running flag cleared. -/
theorem disconnect_robot_running (s : GUIState) :
    (disconnect_robot s).running = false := by
  unfold disconnect_robot
  by_cases h : s.running = true
  · rw [if_pos h]
    exact stop_control_running s
  · rw [if_neg h]
    show s.running = false
    cases hb : s.running
    · rfl
    · exact absurd hb h

/-- `disconnect_robot` ends with the robot session cleared. -/
theorem disconnect_robot_robot (s : GUIState) : (disconnect_robot s).robot = none := rfl

/-- `update_speed_label` does not touch the robot session. -/
theorem update_speed_label_robot (s : GUIState) :
    (update_speed_label s).robot = s.robot := by
  rcases h : s.teleop with _ | t <;> simp [update_speed_label, h]

/-- `connect_robot` does not touch the running flag. -/
theorem connect_robot_running (cenv : ConnectEnv) (s : GUIState) :
    (connect_robot cenv s).running = s.running := by
  by_cases h1 : cenv.ipEntered = "" <;>
    rcases h2 : cenv.reachable with _ | _ <;>
    rcases h3 : cenv.robotInitOk with _ | _ <;>
    simp [connect_robot, update_button_states, h1, h2, h3]

/-- `connect_robot` either keeps the robot session or opens one. -/
theorem connect_robot_robot (cenv : ConnectEnv) (s : GUIState) :
    (connect_robot cenv s).robot = s.robot ∨
    (connect_robot cenv s).robot = some { hasGripper := cenv.gripperOk } := by
  by_cases h1 : cenv.ipEntered = "" <;>
    rcases h2 : cenv.reachable with _ | _ <;>
    rcases h3 : cenv.robotInitOk with _ | _ <;>
    simp [connect_robot, update_button_states, h1, h2, h3]

/-- `start_control` does not touch the robot session. -/
theorem start_control_robot (senv : StartEnv) (s : GUIState) :
    (start_control senv s).robot = s.robot := by
  by_cases h2 : (!senv.initOk) = true
  · simp [start_control, update_button_states, update_speed_label, h2]
  · simp [start_control, update_button_states, update_speed_label, h2]
    split <;> rfl

/-- Claim C7: every connection-manager operation preserves the invariant
that the control loop runs only while a robot session is open;
`start_control` refuses (leaves the state unchanged) when no robot is
connected, and `disconnect_robot` ends with the loop stopped and the
session cleared, having stopped the loop (via `stop_control`, itself
invariant-preserving) before clearing the session. -/
theorem claim_C7 (cenv : ConnectEnv) (senv : StartEnv) (s : GUIState)
    (hinv : conn_invariant s) :
    conn_invariant (connect_robot cenv s) ∧
    conn_invariant (start_control senv s) ∧
    conn_invariant (stop_control s) ∧
    conn_invariant (disconnect_robot s) ∧
    (s.robot = none → start_control senv s = s) ∧
    (disconnect_robot s).running = false ∧
    (disconnect_robot s).robot = none := by
  refine ⟨?_, ?_, ?_, ?_, ?_, disconnect_robot_running s, disconnect_robot_robot s⟩
  · intro hrun
    rcases connect_robot_robot cenv s with h | h
    · rw [h]
      exact hinv ((connect_robot_running cenv s).symm.trans hrun)
    · rw [h]
      rfl
  · intro hrun
    rw [start_control_robot]
    unfold start_control at hrun
    by_cases h1 : (!s.robot.isSome || !s.controller_connected) = true
    · rw [if_pos h1] at hrun
      exact hinv hrun
    · cases hrob : s.robot.isSome with
      | false => exact absurd (by simp [hrob]) h1
      | true => rfl
  · intro hrun
    rw [stop_control_running] at hrun
    exact Bool.noConfusion hrun
  · intro hrun
    rw [disconnect_robot_running] at hrun
    exact Bool.noConfusion hrun
  · intro h
    simp [start_control, h]

/-! ## Concrete states and environments for witness instances -/

/-- The state `UR3eTeleopGUI.__init__` sets up. -/
def baseState : GUIState where
  robot := none
  teleop := none
  controller_connected := false
  is_recording := false
  recording_data := []
  running := false
  scanning := false
  speed := 20
  speed_label := "20%"
  robot_combo := ""
  robot_status := "Not Connected"
  record_btn_text := "Start Recording"
  record_status := "Not Recording"
  save_btn_enabled := false
  start_btn_enabled := false
  stop_btn_enabled := false
  record_btn_enabled := false

/-- A state with an open robot session (no gripper), an active teleop
adapter and the control loop running. -/
def runState : GUIState :=
  { baseState with
    robot := some { hasGripper := false },
    teleop := some { linear_speed_scaling := 0.2, angular_speed_scaling := 0.6 },
    controller_connected := true,
    running := true }

/-- `runState` with the recorder armed. -/
def recState : GUIState := { runState with is_recording := true }

/-- A tick environment whose external calls all succeed. -/
def okEnv : TickEnv where
  servo := Except.ok [0, 0, 0, 0, 0, 0]
  gripperMove := Except.ok ()
  now := 0
  pose := Except.ok [0, 0, 0, 0, 0, 0]
  width := Except.ok 0

/-- A tick environment whose servo call raises. -/
def errEnv : TickEnv := { okEnv with servo := Except.error "boom" }

/-- `recState` after one successful recording tick under `okEnv`. -/
def recordedState : GUIState :=
  { recState with recording_data :=
      [{ timestamp := 0, tcp_pose := [0, 0, 0, 0, 0, 0],
         twist := [0, 0, 0, 0, 0, 0], gripper_width := none }] }

/-- One concrete recorded sample. -/
def samplePoint : DataPoint :=
  { timestamp := 0, tcp_pose := [0, 0, 0, 0, 0, 0], twist := [0, 0, 0, 0, 0, 0],
    gripper_width := none }

/-- `baseState` with one sample in the recording buffer. -/
def bufState : GUIState := { baseState with recording_data := [samplePoint] }

/-- A save environment whose file write succeeds. -/
def saveEnv0 : SaveEnv := { timestamp := "20240101_120000", write := Except.ok () }

/-- A connect environment where everything but the gripper succeeds. -/
def cenv0 : ConnectEnv :=
  { ipEntered := "192.168.0.10", reachable := true, robotInitOk := true,
    gripperOk := false }

/-- A start environment whose adapter constructor succeeds. -/
def senv0 : StartEnv :=
  { initOk := true,
    teleopInit := { linear_speed_scaling := 0.2, angular_speed_scaling := 0.6 } }

/-- `baseState` with an active teleop adapter. -/
def speedState : GUIState :=
  { baseState with teleop := some { linear_speed_scaling := 0.1,
                                    angular_speed_scaling := 0.3 } }

/-- Witness for claim C1 at a concrete running state and tick. -/
theorem claim_C1_witness :
    runState.running = true ∧ runState.teleop.isSome = true ∧
    controlTick okEnv runState =
      (Except.ok runState,
       [Event.servoRequest, Event.gripperRequest, Event.sleep (1/20)]) ∧
    ([Event.servoRequest, Event.gripperRequest, Event.sleep (1/20)] : List Event) =
      [Event.servoRequest, Event.gripperRequest, Event.sleep (1/20)] ∧
    control_loop (fun _ => okEnv) 1 0 runState =
      ((control_loop (fun _ => okEnv) 0 1 runState).1,
       [Event.servoRequest, Event.gripperRequest, Event.sleep (1/20)] ++
         (control_loop (fun _ => okEnv) 0 1 runState).2) :=
  ⟨rfl, rfl, rfl,
   claim_C1 (fun _ => okEnv) 0 0 runState runState
     [Event.servoRequest, Event.gripperRequest, Event.sleep (1/20)] rfl rfl rfl⟩

/-- Witness for claim C4 at a concrete running state and raising tick. -/
theorem claim_C4_witness :
    runState.running = true ∧
    controlTick errEnv runState = (Except.error "boom", [Event.servoRequest]) ∧
    control_loop (fun _ => errEnv) 1 0 runState =
      ({ runState with running := false },
       [Event.servoRequest] ++ [Event.logError ("Control loop error: " ++ "boom")]) :=
  ⟨rfl, rfl,
   claim_C4 (fun _ => errEnv) 0 0 runState "boom" [Event.servoRequest] rfl rfl⟩

/-- Witness for claim C5 at a concrete armed state and recording tick. -/
theorem claim_C5_witness :
    (controlTick okEnv recState).1 = Except.ok recordedState ∧
    ∃ twist pose gw,
      okEnv.servo = Except.ok twist ∧
      okEnv.pose = Except.ok pose ∧
      gw = (none : Option ℚ) ∧
      recordedState.recording_data = recState.recording_data ++
        [{ timestamp := okEnv.now, tcp_pose := pose, twist := twist,
           gripper_width := gw }] :=
  ⟨rfl, by
    obtain ⟨tw, pose, gw, h1, h2, _, h4, h5⟩ :=
      (claim_C5 okEnv recState recordedState rfl).2.2 rfl { hasGripper := false } rfl rfl
    exact ⟨tw, pose, gw, h1, h2, h4 rfl, h5⟩⟩

/-- Witness for claim C6 at a concrete non-empty buffer. -/
theorem claim_C6_witness :
    bufState.recording_data ≠ [] ∧ saveEnv0.write = Except.ok () ∧
    ∃ f : RecordingFile,
      (save_recording saveEnv0 bufState).2.1 = some f ∧
      f.data = bufState.recording_data ∧
      f.data_points = bufState.recording_data.length ∧
      (save_recording saveEnv0 bufState).1.recording_data = bufState.recording_data :=
  ⟨by simp [bufState], rfl,
   claim_C6 saveEnv0 bufState (by simp [bufState]) rfl⟩

/-- Witness for claim C7 at the initial state. -/
theorem claim_C7_witness :
    conn_invariant baseState ∧
    (conn_invariant (connect_robot cenv0 baseState) ∧
     conn_invariant (start_control senv0 baseState) ∧
     conn_invariant (stop_control baseState) ∧
     conn_invariant (disconnect_robot baseState) ∧
     (baseState.robot = none → start_control senv0 baseState = baseState) ∧
     (disconnect_robot baseState).running = false ∧
     (disconnect_robot baseState).robot = none) :=
  ⟨fun h => Bool.noConfusion h,
   claim_C7 cenv0 senv0 baseState (fun h => Bool.noConfusion h)⟩

/-- Witness for claim C9 at the empty initial buffer. -/
theorem claim_C9_witness :
    baseState.recording_data = [] ∧
    save_recording saveEnv0 baseState =
      (baseState, none, [Effect.warn "No recording data to save"]) :=
  ⟨rfl, claim_C9 saveEnv0 baseState rfl⟩

/-- Witness for claim C10 at a concrete state with an active adapter. -/
theorem claim_C10_witness :
    speedState.teleop =
      some { linear_speed_scaling := 0.1, angular_speed_scaling := 0.3 } ∧
    update_speed_label speedState =
      { speedState with
        speed_label := formatSpeed speedState.speed,
        teleop := some { linear_speed_scaling := 0.2 * (speedState.speed / 100),
                         angular_speed_scaling := 0.6 * (speedState.speed / 100) } } :=
  ⟨rfl, (claim_C10 speedState).1 _ rfl⟩

end XboxUr3
